import Mathlib

/-!
# Verification of the Scrape-The-Verse title-reconciliation engine and loader

This file is a shallow embedding, in Lean 4, of the two subsystems of the
Scrape-The-Verse repository that its specification covers:

* the title-reconciliation engine of
  `src/processing/join_lyrics_and_metadata.py` (text normalization, the
  tiered lyric matcher, folder resolution, and the per-album join), and
* the idempotent loader of `src/load/load.py` (schema constraints, the
  insert-or-fetch upserts for artists/albums/tracks/lyrics, and the
  per-artist orchestration loop).

Python strings are modelled as Lean `String`s (sequences of characters,
matching Python's per-character slicing and iteration).  Python dicts are
modelled as association lists in insertion order, with the dict operations
(`in`, indexing, comprehension overwrite) given explicit definitions.
The PostgreSQL tables are modelled as lists of row structures together with
the `SERIAL` id counters; `ON CONFLICT ... DO NOTHING` is modelled with
PostgreSQL's semantics for unique constraints, under which two NULLs are
distinct (the default `NULLS DISTINCT` behaviour of unique indexes).
`difflib.get_close_matches` (an external library the matcher calls with
`n=1` and varying cutoffs) is modelled as an explicit oracle parameter
`gcm word possibilities cutoff : Option String`; every theorem about the
surrounding control flow is proved for all oracles, or under the library's
contract `GcmValid` that a returned match is drawn from the candidate list.
-/

namespace STV

/-! ## Characters and Python string primitives

The character-level operations are modelled on the character repertoire this
pipeline manipulates: ASCII text plus the typographic characters that
`normalize_unicode`'s replacement table mentions.  On that repertoire,
Python's `str.lower` and the regex classes `\w`/`\s` coincide with the
ASCII definitions below.
-/

/-- Python's `\s` regex class / `str.strip` whitespace, restricted to ASCII:
space, tab, newline, carriage return, vertical tab, form feed. -/
def pyWs (c : Char) : Bool :=
  c = ' ' || c = '\t' || c = '\n' || c = '\r' || c = '\x0b' || c = '\x0c'

/-- Python's `str.lower` on the ASCII range (identity elsewhere). -/
def lowerChar (c : Char) : Char :=
  if 'A' ≤ c && c ≤ 'Z' then Char.ofNat (c.toNat + 32) else c

/-- `str.lower` applied to a whole string. -/
def lowerStr (s : String) : String := ⟨s.data.map lowerChar⟩

/-- `str.strip()`: drop leading and trailing whitespace. -/
def pyStrip (s : String) : String :=
  ⟨((s.data.dropWhile pyWs).reverse.dropWhile pyWs).reverse⟩

/-- One left-to-right, non-overlapping pass of Python's
`str.replace(pat, rep)` over a character list (`pat` nonempty). -/
def replaceList (pat rep : List Char) : Nat → List Char → List Char
  | 0, cs => cs
  | _ + 1, [] => []
  | fuel + 1, c :: rest =>
    if pat.isPrefixOf (c :: rest) then
      rep ++ replaceList pat rep fuel ((c :: rest).drop pat.length)
    else
      c :: replaceList pat rep fuel rest

/-- Python's `str.replace`: replace every occurrence, left to right. -/
def pyReplace (s pat rep : String) : String :=
  ⟨replaceList pat.data rep.data s.data.length s.data⟩

/-! ## `normalize_unicode` (join_lyrics_and_metadata.py, lines 21-29) -/

/-- Unicode NFKD decomposition, modelled on the repertoire above: ASCII
characters are NFKD-invariant, and the no-break space U+00A0 (the only
character of the replacement table with a compatibility decomposition)
decomposes to an ordinary space. -/
def nfkd (s : String) : String :=
  ⟨s.data.map fun c => if c = '\u00A0' then ' ' else c⟩

/-- The replacement table of `normalize_unicode`, in source order:
curly quotes to ASCII quotes, en/em dashes to hyphens, no-break space to
space. -/
def unicodeReplacements : List (String × String) :=
  [("’", "'"), ("‘", "'"), ("“", "\""), ("”", "\""),
   ("–", "-"), ("—", "-"), ("\u00A0", " ")]

/-- `normalize_unicode(text)`: NFKD-normalize, apply the replacement table,
then strip surrounding whitespace. -/
def normalizeUnicode (text : String) : String :=
  pyStrip (unicodeReplacements.foldl (fun acc p => pyReplace acc p.1 p.2) (nfkd text))

/-! ## The three regex substitutions of `normalize_for_match`
(join_lyrics_and_metadata.py, lines 31-37)

Each of the three `re.sub` calls uses a fixed pattern, so each is embedded
as a dedicated executable function implementing Python `re` semantics for
that pattern: leftmost match wins, alternatives are tried in pattern order,
`.` does not match a newline, matching is case-insensitive where the source
passes `re.IGNORECASE`, and `re.sub` continues scanning after the end of
each replaced match.
-/

/-- Case-insensitive (ASCII) literal test: does `cs` start with `lit`
(where `lit` is given in lowercase)? -/
def startsWithCI (lit : List Char) (cs : List Char) : Bool :=
  (cs.take lit.length).map lowerChar = lit

/-- The literal alternatives of the noise pattern
`(feat\..*|explicit|remix|pop mix|radio edit|slow version|vault)` that have
no trailing `.*`, in pattern order. -/
def noiseLiterals : List (List Char) :=
  ["explicit".data, "remix".data, "pop mix".data, "radio edit".data,
   "slow version".data, "vault".data]

/-- Try the noise alternatives, in pattern order, at the head of `cs`;
return the length of the match.  `feat\..*` greedily consumes to the end of
the line (Python `.` excludes `\n`). -/
def matchNoiseAt (cs : List Char) : Option Nat :=
  if startsWithCI "feat.".data cs then
    some (5 + ((cs.drop 5).takeWhile (fun c => c ≠ '\n')).length)
  else
    noiseLiterals.findSome? fun lit =>
      if startsWithCI lit cs then some lit.length else none

/-- Delete every noise match, scanning left to right (fuelled recursion;
the fuel is the list length, which bounds the number of scan steps). -/
def subNoiseGo : Nat → List Char → List Char
  | 0, cs => cs
  | _ + 1, [] => []
  | fuel + 1, c :: rest =>
    match matchNoiseAt (c :: rest) with
    | some n => subNoiseGo fuel ((c :: rest).drop n)
    | none => c :: subNoiseGo fuel rest

/-- `re.sub(r'(feat\..*|explicit|remix|pop mix|radio edit|slow version|vault)', '', text, flags=IGNORECASE)`. -/
def subNoise (s : String) : String := ⟨subNoiseGo s.data.length s.data⟩

/-- Case-insensitive search for the first occurrence of `"version"` in
`tail` followed (lazily) by a closing `')'` on the same line: returns the
parenthesised group content and the number of characters consumed
including the `')'`.  Backtracks to later `"version"` occurrences when no
`')'` follows, as the regex engine does with `(.*?version.*?)\)`. -/
def findVersionContent : Nat → Nat → List Char → Option (List Char × Nat)
  | 0, _, _ => none
  | _ + 1, _, [] => none
  | fuel + 1, q, tail@(c :: cs) =>
    if c = '\n' then none
    else if startsWithCI "version".data tail then
      let rest := tail.drop 7
      let line := rest.takeWhile (fun d => d ≠ '\n')
      match line.findIdx? (fun d => d = ')') with
      | some j => some ((tail.take (7 + j)), q + 7 + j + 1)
      | none => findVersionContent fuel (q + 1) cs
    else findVersionContent fuel (q + 1) cs

/-- Group-content search relative to the start of the content: the content
collected so far (`pre`, reversed) plus `findVersionContent`'s result gives
the whole group `pre ++ "version" ++ ...`.  Packaged: try a match of
`(.*?version.*?)\)` starting at the head of `tail`; return (group, length
consumed including `')'`). -/
def versionGroupAt (tail : List Char) : Option (List Char × Nat) :=
  match findVersionContent tail.length 0 tail with
  | some (_, consumed) => some (tail.take (consumed - 1), consumed)
  | none => none

/-- Try a match of `\s*\((.*?version.*?)\)` starting exactly at the head of
`cs`: the greedy `\s*` must reach a `'('` and the group must contain
`"version"`.  Returns the group and the total match length. -/
def versionAt (cs : List Char) : Option (List Char × Nat) :=
  let w := (cs.takeWhile pyWs).length
  match cs.drop w with
  | '(' :: tail =>
    match versionGroupAt tail with
    | some (g, consumed) => some (g, w + 1 + consumed)
    | none => none
  | _ => none

/-- Replace every match of `\s*\((.*?version.*?)\)` by a space followed by
the group content, scanning left to right. -/
def subVersionGo : Nat → List Char → List Char
  | 0, cs => cs
  | _ + 1, [] => []
  | fuel + 1, c :: rest =>
    match versionAt (c :: rest) with
    | some (g, n) => ' ' :: (g ++ subVersionGo fuel ((c :: rest).drop n))
    | none => c :: subVersionGo fuel rest

/-- `re.sub(r'\s*\((.*?version.*?)\)', r' \1', text, flags=IGNORECASE)`. -/
def subVersion (s : String) : String := ⟨subVersionGo s.data.length s.data⟩

/-- `re.sub(r'[^\w\s\(\)]', '', text)`: keep word characters, whitespace
and parentheses, delete the rest. -/
def stripPunct (s : String) : String :=
  ⟨s.data.filter fun c => c.isAlphanum || c = '_' || pyWs c || c = '(' || c = ')'⟩

/-- `normalize_for_match(text)` (join_lyrics_and_metadata.py, lines 31-37):
unicode normalization, bracket unification, unwrapping of "version"
parentheses, noise-marker deletion, punctuation removal, strip and
lowercase. -/
def normalizeForMatch (text : String) : String :=
  let t := normalizeUnicode text
  let t := pyReplace (pyReplace t "[" "(") "]" ")"
  let t := subVersion t
  let t := subNoise t
  let t := stripPunct t
  lowerStr (pyStrip t)

/-! ## Python dictionaries

The matcher's `lyrics_map` and the folder maps are Python dicts: insertion
order is preserved, assigning to an existing key overwrites its value in
place, `k in d` and `d[k]` look up by key equality.
-/

/-- Dict assignment `m[k] = v`: overwrite in place if the key exists,
append otherwise (a Python dict keeps the key's original position). -/
def dictInsert : List (String × String) → String → String → List (String × String)
  | [], k, v => [(k, v)]
  | p :: ps, k, v => if p.1 = k then (k, v) :: ps else p :: dictInsert ps k v

/-- Dict lookup `d[k]` / `k in d` (`none` when absent). -/
def lookupDict (m : List (String × String)) (k : String) : Option String :=
  (m.find? fun p => p.1 = k).map (·.2)

/-! ## The `difflib.get_close_matches` oracle

Both fuzzy tiers call `difflib.get_close_matches(word, possibilities, n=1,
cutoff=c)`, an external library routine.  It is modelled as an oracle
parameter `gcm word possibilities cutoff` returning the best candidate at
that cutoff, or `none`.  The library guarantees that a returned match is
one of the supplied possibilities (`GcmValid`).
-/

/-- The shape of `difflib.get_close_matches` with `n=1`: word, candidate
keys, similarity cutoff. -/
def Gcm : Type := String → List String → Rat → Option String

/-- The `difflib` contract: a returned close match is drawn from the
candidate list. -/
def GcmValid (gcm : Gcm) : Prop :=
  ∀ w ps c r, gcm w ps c = some r → r ∈ ps

/-- `get_close_matches` restricted to an empty candidate pool (it then
always returns no match); used to instantiate theorems at concrete inputs
whose candidate list is empty. -/
def gcmEmpty : Gcm := fun _ _ _ => none

theorem gcmEmpty_valid : GcmValid gcmEmpty := by
  intro w ps c r h
  simp [gcmEmpty] at h

/-! ## `match_lyrics` (join_lyrics_and_metadata.py, lines 104-125) -/

/-- The prefix-tier test `key.startswith(simplified[:10])`. -/
def startsWithKey (simplified key : String) : Bool :=
  (simplified.data.take 10).isPrefixOf key.data

/-- `match_lyrics(song_title, lyrics_map, match_log)`: normalize the title,
then try the exact, prefix and fuzzy tiers in order; append one audit entry
per invocation; return the matched lyrics (or the empty string) together
with the extended log.  The fuzzy tier consults the oracle at cutoff 0.6
and indexes the map with its result (always a key, by `GcmValid`; the
defaulted branch is unreachable for a valid oracle). -/
def matchLyrics (gcm : Gcm) (songTitle : String) (lyricsMap : List (String × String))
    (matchLog : List String) : String × List String :=
  let simplified := normalizeForMatch songTitle
  match lookupDict lyricsMap simplified with
  | some lyr => (lyr, matchLog ++ [songTitle ++ " --> " ++ simplified ++ " (exact)"])
  | none =>
    match lyricsMap.find? (fun kv => startsWithKey simplified kv.1) with
    | some kv => (kv.2, matchLog ++ [songTitle ++ " --> " ++ kv.1 ++ " (prefix)"])
    | none =>
      match gcm simplified (lyricsMap.map (·.1)) (0.6 : Rat) with
      | some k =>
        ((lookupDict lyricsMap k).getD "",
         matchLog ++ [songTitle ++ " --> " ++ k ++ " (fuzzy)"])
      | none => ("", matchLog ++ [songTitle ++ " --> ❌ No match"])

/-- The missing-lyrics selection of `join_album` (line 175):
`df[df["Lyrics"] == ""]["SongName"].tolist()` over (SongName, Lyrics)
rows. -/
def missingOf (rows : List (String × String)) : List String :=
  (rows.filter fun r => r.2 = "").map (·.1)

/-! ## `load_combined_lyrics_map` (lines 89-102)

Builds the lyric map from the resolved folder's text files, given here as
(file stem, file text) pairs in glob order.  A stem whose normalized key is
already mapped is skipped (first file wins).
-/

/-- `load_combined_lyrics_map`, over the folder's (stem, text) pairs. -/
def loadCombinedLyricsMap (files : List (String × String)) : List (String × String) :=
  files.foldl
    (fun m f =>
      let key := normalizeForMatch f.1
      if m.any (fun p => p.1 = key) then m else m ++ [(key, f.2)])
    []

/-! ## `find_album_folder_path` (lines 43-56)

Resolves the on-disk lyrics folder for (artist, album) among the folder
names of `transformations/GENIUS/<artist>`: exact match on the
unicode-normalized, lowercased name first, then `get_close_matches` at
cutoff 0.85, otherwise a raised `FileNotFoundError` (modelled as
`Except.error`; any raised exception maps to `Except.error`).
-/

/-- The comprehension `{normalize_unicode(f.name).lower(): f for f in album_folders}`
(later folders overwrite earlier ones on key collision). -/
def buildFolderMap (albumFolders : List String) : List (String × String) :=
  albumFolders.foldl (fun m f => dictInsert m (lowerStr (normalizeUnicode f)) f) []

/-- `find_album_folder_path(artist, album)` over the listed folder names. -/
def findAlbumFolderPath (gcm : Gcm) (artist : String) (albumFolders : List String)
    (album : String) : Except String String :=
  let normalizedAlbum := lowerStr (normalizeUnicode album)
  let folderMap := buildFolderMap albumFolders
  match lookupDict folderMap normalizedAlbum with
  | some f => Except.ok f
  | none =>
    match gcm normalizedAlbum (folderMap.map (·.1)) (0.85 : Rat) with
    | some m =>
      match lookupDict folderMap m with
      | some f => Except.ok f
      | none => Except.error ("❌ No matching folder found for " ++ album ++ " under " ++ artist)
    | none => Except.error ("❌ No matching folder found for " ++ album ++ " under " ++ artist)

/-! ## `join_album` (lines 143-198)

The per-album join, embedded as a state transformer.  The file-system
inputs the function reads are supplied as data:

* `songNames : Option (List String)` — the `SongName` rows of the album's
  `*_transformed.csv`; `none` models any exception raised while resolving
  or reading it (`find_album_dir_by_csv` failure, no `*_transformed.csv`).
* `lyricFiles : Option (List (String × String))` — the (stem, text) pairs
  of the resolved GENIUS folder; `none` models a `find_album_folder_path`
  failure.
* `metadataSrcExists : Bool` — whether
  `transformations/SPOTIFY/<artist>/<artist>_merged_metadata.csv` exists.

The observable effects are collected in `JoinState`: the run-failure log,
the success list, each album's written matched-lyrics and missing-lyrics
log files, and the number of times the artist-level metadata file was
copied to the processed-output artist folder.
-/

structure AlbumJoinInput where
  songNames : Option (List String)
  lyricFiles : Option (List (String × String))
  metadataSrcExists : Bool

structure JoinState where
  logs : List String
  successes : List String
  matchedLogWrites : List (List String)
  missingLogWrites : List (List String)
  copyCount : Nat

/-- The `except` branch of `join_album`: append the failure to the shared
run log (the exception text is abstracted). -/
def joinFail (st : JoinState) (artist album : String) : JoinState :=
  { st with logs := st.logs ++ [artist ++ " - " ++ album ++ ": error"] }

/-- `join_album(artist, album, logs, successes)`. -/
def joinAlbum (gcm : Gcm) (artist album : String) (inp : AlbumJoinInput)
    (st : JoinState) : JoinState :=
  let artist := normalizeUnicode artist
  let album := normalizeUnicode album
  match inp.songNames with
  | none => joinFail st artist album
  | some names =>
    match inp.lyricFiles with
    | none => joinFail st artist album
    | some files =>
      let lyricsMap := loadCombinedLyricsMap files
      if lyricsMap.isEmpty then joinFail st artist album
      else
        let step := fun (p : List (String × String) × List String) n =>
          let r := matchLyrics gcm n lyricsMap p.2
          (p.1 ++ [(n, r.1)], r.2)
        let rowsLog := names.foldl step ([], [])
        let missing := missingOf rowsLog.1
        let st :=
          if rowsLog.2.isEmpty then st
          else { st with matchedLogWrites := st.matchedLogWrites ++ [rowsLog.2] }
        let st :=
          if missing.isEmpty then st
          else { st with missingLogWrites := st.missingLogWrites ++ [missing] }
        let st := { st with successes := st.successes ++ [artist ++ " - " ++ album] }
        if inp.metadataSrcExists then { st with copyCount := st.copyCount + 1 } else st

/-- Whether `join_album` reaches its success path on the given input:
the transformed CSV was resolved and read, the lyrics folder was resolved,
and the loaded lyric map is nonempty. -/
def joinSucceeds (inp : AlbumJoinInput) : Bool :=
  match inp.songNames, inp.lyricFiles with
  | some _, some files => !(loadCombinedLyricsMap files).isEmpty
  | _, _ => false

/-! ## The loader's data model (load.py)

`parse_artist_csv` / `parse_album_csv` produce per-entity records whose
values, after `to_python_type`, are native Python values or `None`; these
are the field types below (`Option` marks a nullable column or field).
SQL `DATE` values are carried as their ISO strings.  The four core tables
are lists of row structures in insertion order, plus the `SERIAL` id
counters (PostgreSQL sequences start at 1).
-/

structure ArtistData where
  name : String
  birth_name : Option String
  birth_date : Option String
  birth_place : Option String
  country : String
  active_years : Option Int
  genres : String
  instruments : Option String
  vocal_type : Option String
  popularity : Option Int
  followers : Option Int
  image_url : Option String
deriving DecidableEq, Repr

structure AlbumData where
  name : String
  release_date : Option String
  popularity : Option Int
  image_url : Option String
deriving DecidableEq, Repr

structure TrackData where
  name : String
  track_number : Nat
  duration_ms : Option Int
  explicit : Option Bool
  popularity : Option Int
  lyrics : String
deriving DecidableEq, Repr

/-- A row of `artists` (schema: load.py lines 90-107). -/
structure ArtistRow where
  id : Nat
  name : String
  birth_name : Option String
  birth_date : Option String
  birth_place : Option String
  country : String
  active_years : Option Int
  genres : String
  instruments : Option String
  vocal_type : Option String
  popularity : Option Int
  followers : Option Int
  image_url : Option String
deriving DecidableEq, Repr

/-- A row of `albums` (lines 109-118). -/
structure AlbumRow where
  id : Nat
  name : String
  artist_id : Nat
  release_date : Option String
  popularity : Option Int
  image_url : Option String
deriving DecidableEq, Repr

/-- A row of `tracks` (lines 121-131). -/
structure TrackRow where
  id : Nat
  name : String
  album_id : Nat
  track_number : Nat
  duration_ms : Option Int
  explicit : Option Bool
  popularity : Option Int
deriving DecidableEq, Repr

/-- A row of `lyrics` (lines 134-144); the analysis columns are always
inserted as NULL by this loader. -/
structure LyricsRow where
  track_id : Nat
  text : Option String
  readability_score : Option Rat
  sentiment_score : Option Rat
  word_count : Option Int
  line_count : Option Int
  char_count : Option Int
  lexical_density : Option Rat
deriving DecidableEq, Repr

/-- The database state: the four core tables plus the `SERIAL` sequences. -/
structure DB where
  artists : List ArtistRow
  albums : List AlbumRow
  tracks : List TrackRow
  lyrics : List LyricsRow
  nextArtistId : Nat
  nextAlbumId : Nat
  nextTrackId : Nat
deriving DecidableEq, Repr

/-- A freshly created database (after `create_tables` on an empty schema). -/
def emptyDB : DB :=
  { artists := [], albums := [], tracks := [], lyrics := []
    nextArtistId := 1, nextAlbumId := 1, nextTrackId := 1 }

/-- SQL equality of two nullable values as a unique index sees them:
NULL is distinct from everything, including NULL (PostgreSQL's default
`NULLS DISTINCT` behaviour, which `ON CONFLICT` inference follows). -/
def sqlEq (a b : Option String) : Bool :=
  match a, b with
  | some x, some y => x = y
  | _, _ => false

/-- Python truthiness of an id that is `None` or an integer, as used by
`if not artist_id:` / `if not album_id:` / `if not track_id:` (load.py
lines 432, 453, 372): `None` and `0` are falsy. -/
def idTruthy : Option Nat → Bool
  | none => false
  | some n => n != 0

/-! ## `insert_artist` (lines 251-279) -/

/-- `INSERT INTO artists ... ON CONFLICT (name, birth_date) DO NOTHING
RETURNING id`: the insert is skipped (and no id returned) exactly when an
existing row collides on the unique key, NULL birth dates never
colliding. -/
def insertArtist (db : DB) (a : ArtistData) : Option Nat × DB :=
  if db.artists.any (fun r => r.name = a.name && sqlEq r.birth_date a.birth_date) then
    (none, db)
  else
    let id := db.nextArtistId
    (some id,
     { db with
        artists := db.artists ++
          [{ id := id, name := a.name, birth_name := a.birth_name
             birth_date := a.birth_date, birth_place := a.birth_place
             country := a.country, active_years := a.active_years
             genres := a.genres, instruments := a.instruments
             vocal_type := a.vocal_type, popularity := a.popularity
             followers := a.followers, image_url := a.image_url }]
        nextArtistId := id + 1 })

/-! ## `insert_album` (lines 282-309) -/

/-- `INSERT INTO albums ... ON CONFLICT (name, artist_id) DO NOTHING
RETURNING id` (both key columns are non-null here). -/
def insertAlbum (db : DB) (a : AlbumData) (artist_id : Nat) : Option Nat × DB :=
  if db.albums.any (fun r => r.name = a.name && r.artist_id = artist_id) then
    (none, db)
  else
    let id := db.nextAlbumId
    (some id,
     { db with
        albums := db.albums ++
          [{ id := id, name := a.name, artist_id := artist_id
             release_date := a.release_date, popularity := a.popularity
             image_url := a.image_url }]
        nextAlbumId := id + 1 })

/-! ## `insert_tracks` (lines 312-337) -/

/-- One row of the multi-row `INSERT INTO tracks ... ON CONFLICT
(name, album_id) DO NOTHING`: a row conflicting with the table (or with a
row inserted earlier in the same statement) is skipped. -/
def insertTrackRow (album_id : Nat) (db : DB) (t : TrackData) : DB :=
  if db.tracks.any (fun r => r.name = t.name && r.album_id = album_id) then db
  else
    { db with
       tracks := db.tracks ++
         [{ id := db.nextTrackId, name := t.name, album_id := album_id
            track_number := t.track_number, duration_ms := t.duration_ms
            explicit := t.explicit, popularity := t.popularity }]
       nextTrackId := db.nextTrackId + 1 }

/-- `insert_tracks(cursor, tracks, album_id)`: the bulk insert processes
the rows in list order. -/
def insertTracks (db : DB) (tracks : List TrackData) (album_id : Nat) : DB :=
  tracks.foldl (insertTrackRow album_id) db

/-! ## `get_track_name_to_id` (lines 340-355) -/

/-- Dict assignment for the name-to-id map (overwrite in place, append
when absent). -/
def dictInsertNat : List (String × Nat) → String → Nat → List (String × Nat)
  | [], k, v => [(k, v)]
  | p :: ps, k, v => if p.1 = k then (k, v) :: ps else p :: dictInsertNat ps k v

/-- Dict lookup for the name-to-id map (`dict.get`). -/
def lookupDictNat (m : List (String × Nat)) (k : String) : Option Nat :=
  (m.find? fun p => p.1 = k).map (·.2)

/-- `SELECT id, name FROM tracks WHERE album_id = %s` followed by the dict
build `{name: tid for tid, name in cursor.fetchall()}`.  The `SELECT` has
no `ORDER BY`; rows are modelled in table (insertion) order. -/
def getTrackNameToId (db : DB) (album_id : Nat) : List (String × Nat) :=
  (db.tracks.filter fun r => r.album_id = album_id).foldl
    (fun m r => dictInsertNat m r.name r.id) []

/-! ## `insert_lyrics` (lines 358-381) -/

/-- One iteration of `insert_lyrics`: resolve the track id from the map
(skipping `None` and the falsy id `0`), then `INSERT INTO lyrics
(track_id, text, readability_score, sentiment_score) VALUES (%s, %s, NULL,
NULL) ON CONFLICT (track_id) DO NOTHING`. -/
def insertLyricsRow (m : List (String × Nat)) (db : DB) (t : TrackData) : DB :=
  match lookupDictNat m t.name with
  | none => db
  | some tid =>
    if tid = 0 then db
    else if db.lyrics.any (fun l => l.track_id = tid) then db
    else
      { db with
         lyrics := db.lyrics ++
           [{ track_id := tid, text := some t.lyrics
              readability_score := none, sentiment_score := none
              word_count := none, line_count := none, char_count := none
              lexical_density := none }] }

/-- `insert_lyrics(cursor, tracks, track_name_to_id)`. -/
def insertLyrics (db : DB) (tracks : List TrackData) (m : List (String × Nat)) : DB :=
  tracks.foldl (insertLyricsRow m) db

/-! ## The orchestration loop of `main` (lines 413-469) -/

/-- Python's `kw in s` substring test. -/
def pyContains (s kw : String) : Bool :=
  s.data.tails.any fun suf => kw.data.isPrefixOf suf

/-- `is_valid_album_name` (lines 54-64): exclude names containing
"deluxe" or "live", case-insensitively. -/
def isValidAlbumName (name : String) : Bool :=
  !(["deluxe", "live"].any fun kw => pyContains (lowerStr name) kw)

/-- The artist fallback lookup of `main` (line 433):
`SELECT id FROM artists WHERE name = %s` — by name alone. -/
def artistFallbackLookup (db : DB) (name : String) : Option Nat :=
  (db.artists.find? fun r => r.name = name).map (·.id)

/-- The album fallback lookup of `main` (lines 454-455):
`SELECT id FROM albums WHERE name = %s AND artist_id = %s`. -/
def albumFallbackLookup (db : DB) (name : String) (artist_id : Nat) : Option Nat :=
  (db.albums.find? fun r => r.name = name && r.artist_id = artist_id).map (·.id)

/-- Artist upsert as `main` performs it (lines 429-435): conflict-ignoring
insert, then, if no id was returned, the fallback lookup by name. -/
def upsertArtistId (db : DB) (a : ArtistData) : Option Nat × DB :=
  let r := insertArtist db a
  if idTruthy r.1 then r
  else (artistFallbackLookup r.2 a.name, r.2)

/-- Album upsert as `main` performs it (lines 450-457). -/
def upsertAlbumId (db : DB) (a : AlbumData) (artist_id : Nat) : Option Nat × DB :=
  let r := insertAlbum db a artist_id
  if idTruthy r.1 then r
  else (albumFallbackLookup r.2 a.name artist_id, r.2)

/-- The per-album body of `main`'s loop (lines 448-469): upsert the album,
skip it if no id resolves, then bulk-insert its tracks, build the scoped
name-to-id map, insert the lyrics, and commit. -/
def loadAlbum (db : DB) (artist_id : Nat) (a : AlbumData) (tracks : List TrackData) : DB :=
  let r := upsertAlbumId db a artist_id
  match r.1 with
  | none => r.2
  | some album_id =>
    if album_id = 0 then r.2
    else
      let db2 := insertTracks r.2 tracks album_id
      insertLyrics db2 tracks (getTrackNameToId db2 album_id)

/-- One album folder of a processed artist directory: the folder name (the
exclusion filter applies to it) and the parsed `*_final.csv` contents. -/
structure AlbumFolder where
  folderName : String
  album : AlbumData
  tracks : List TrackData
deriving DecidableEq, Repr

/-- The per-artist body of `main`'s loop (lines 428-469): upsert the
artist (with fallback lookup by name), skip the artist if no id resolves,
then process each album folder, skipping folders whose name fails the
exclusion filter. -/
def loadArtist (db : DB) (a : ArtistData) (albums : List AlbumFolder) : DB :=
  let r := upsertArtistId db a
  match r.1 with
  | none => r.2
  | some artist_id =>
    if artist_id = 0 then r.2
    else
      albums.foldl
        (fun d f =>
          if isValidAlbumName f.folderName then loadAlbum d artist_id f.album f.tracks
          else d)
        r.2

/-! ## Helper lemmas -/

/-- `find?` returns the first element satisfying the predicate. -/
theorem find_first {α : Type} (p : α → Bool) (pre post : List α) (a : α)
    (ha : p a = true) (hpre : ∀ x ∈ pre, p x = false) :
    (pre ++ a :: post).find? p = some a := by
  induction pre with
  | nil => simp [List.find?_cons, ha]
  | cons b bs ih =>
    have hb : p b = false := hpre b (by simp)
    simp only [List.cons_append, List.find?_cons, hb]
    exact ih fun x hx => hpre x (by simp [hx])

/-- Looking up the key just assigned. -/
theorem lookupDictNat_insert_same (m : List (String × Nat)) (k : String) (v : Nat) :
    lookupDictNat (dictInsertNat m k v) k = some v := by
  induction m with
  | nil => simp [dictInsertNat, lookupDictNat]
  | cons p ps ih =>
    by_cases h : p.1 = k
    · simp [dictInsertNat, h, lookupDictNat]
    · simp only [dictInsertNat, if_neg h]
      simpa [lookupDictNat, List.find?_cons, h] using ih

/-- Assigning one key does not change another key's binding. -/
theorem lookupDictNat_insert_other (m : List (String × Nat)) (k k' : String) (v : Nat)
    (h : k' ≠ k) : lookupDictNat (dictInsertNat m k v) k' = lookupDictNat m k' := by
  induction m with
  | nil => simp [dictInsertNat, lookupDictNat, List.find?_cons, Ne.symm h]
  | cons p ps ih =>
    by_cases hp : p.1 = k
    · simp [dictInsertNat, hp, lookupDictNat, List.find?_cons, Ne.symm h, hp ▸ Ne.symm h]
    · simp only [dictInsertNat, if_neg hp]
      by_cases hp' : p.1 = k'
      · simp [lookupDictNat, List.find?_cons, hp']
      · simpa [lookupDictNat, List.find?_cons, hp'] using ih

/-- The name-to-id build over rows none of which carry the queried name
leaves that name's binding unchanged. -/
theorem build_lookup_skip (L : List TrackRow) (m : List (String × Nat)) (n : String)
    (h : ∀ r ∈ L, r.name ≠ n) :
    lookupDictNat (L.foldl (fun m r => dictInsertNat m r.name r.id) m) n = lookupDictNat m n := by
  induction L generalizing m with
  | nil => rfl
  | cons r rs ih =>
    simp only [List.foldl_cons]
    rw [ih _ fun s hs => h s (by simp [hs]),
        lookupDictNat_insert_other _ _ _ _ (Ne.symm (h r (by simp)))]

/-- The name-to-id build maps a name to the id of the last row carrying
it. -/
theorem build_lookup_last (L₁ L₂ : List TrackRow) (t : TrackRow) (m : List (String × Nat))
    (h₂ : ∀ r ∈ L₂, r.name ≠ t.name) :
    lookupDictNat ((L₁ ++ t :: L₂).foldl (fun m r => dictInsertNat m r.name r.id) m) t.name =
      some t.id := by
  rw [List.foldl_append, List.foldl_cons, build_lookup_skip _ _ _ h₂,
      lookupDictNat_insert_same]

/-- `(s ++ t).data` unfolds to the concatenation of the data lists. -/
theorem strData_append (s t : String) : (s ++ t).data = s.data ++ t.data := rfl

/-- String concatenation is associative. -/
theorem strAppend_assoc (a b c : String) : (a ++ b) ++ c = a ++ (b ++ c) :=
  congrArg String.mk (List.append_assoc a.data b.data c.data)

/-! ## Claim C1 — loader idempotence and the null-birth-date upsert

The failing input for C1: an artist whose merged metadata has a `NULL`
birth date, with one album of one track, loaded twice into a fresh
database.
-/

/-- Artist "X" with birth date NULL (the spec's example scenario). -/
def artistXNull : ArtistData :=
  { name := "X", birth_name := none, birth_date := none, birth_place := none
    country := "", active_years := none, genres := "", instruments := none
    vocal_type := none, popularity := none, followers := none, image_url := none }

/-- A one-track album folder for the C1 scenario. -/
def folderY : AlbumFolder :=
  { folderName := "Y"
    album := { name := "Y", release_date := none, popularity := none, image_url := none }
    tracks := [{ name := "Z", track_number := 1, duration_ms := none
                 explicit := none, popularity := none, lyrics := "la la" }] }

/-- The database after loading the C1 scenario once into a fresh schema. -/
def c1FirstRun : DB := loadArtist emptyDB artistXNull [folderY]

/-- The database after re-running the loader on the identical input. -/
def c1SecondRun : DB := loadArtist c1FirstRun artistXNull [folderY]

/-- **C1.** The claim (and the code's own comment "Avoid duplicates on key
identity fields") says re-loading an artist with the same name and a null
birth date returns the same existing id and creates no duplicate rows.
The code violates this: `ON CONFLICT (name, birth_date)` never fires for a
NULL birth date (PostgreSQL unique indexes treat NULLs as distinct), so the
second run inserts a second artist row with a fresh id, and every
downstream table doubles as well — row counts in all four core tables go
from (1, 1, 1, 1) to (2, 2, 2, 2) instead of staying equal. -/
theorem c1_null_birth_date_reload_duplicates_all_tables :
    c1FirstRun.artists.length = 1 ∧ c1FirstRun.albums.length = 1 ∧
    c1FirstRun.tracks.length = 1 ∧ c1FirstRun.lyrics.length = 1 ∧
    c1SecondRun.artists.length = 2 ∧ c1SecondRun.albums.length = 2 ∧
    c1SecondRun.tracks.length = 2 ∧ c1SecondRun.lyrics.length = 2 ∧
    (upsertArtistId emptyDB artistXNull).1 = some 1 ∧
    (upsertArtistId c1FirstRun artistXNull).1 = some 2 := by
  decide

/-! ## Claim C3 — normalizer determinism and the feat/Explicit example -/

/-- **C3 counterexample.** Normalizing `"Song (feat. X) [Explicit]"` does
not yield the same string as normalizing `"Song"`: the greedy `feat\..*`
noise rule deletes through the closing parenthesis while the punctuation
pass preserves `'('`, leaving a stray ` (` suffix. -/
theorem c3_feat_explicit_normalization_counterexample :
    normalizeForMatch "Song (feat. X) [Explicit]" ≠ normalizeForMatch "Song" := by
  decide

/-- **C3 (amended).** The normalizer is deterministic (it is a pure
function of its input), but `normalize("Song (feat. X) [Explicit]")`
evaluates to `"song ("`, which differs from `normalize("Song") = "song"`
by a trailing space and parenthesis. -/
theorem c3_normalizer_deterministic_amended :
    (∀ x : String, normalizeForMatch x = normalizeForMatch x) ∧
    normalizeForMatch "Song (feat. X) [Explicit]" = "song (" ∧
    normalizeForMatch "Song" = "song" ∧
    normalizeForMatch "Song (feat. X) [Explicit]" ≠ normalizeForMatch "Song" :=
  ⟨fun _ => rfl, by decide, by decide, by decide⟩

/-! ## Claim C2 — tier order: exact, then prefix, then fuzzy -/

/-- **C2.** For every oracle (hence for every similarity scoring), every
title, candidate map and log: (i) if the normalized title is a candidate
key, the matcher returns that candidate at the exact tier — the fuzzy
oracle is never consulted, so no fuzzy candidate, however similar, can win;
(ii) if the exact tier fails, the matcher returns the first candidate whose
key extends the normalized title's 10-character prefix, at the prefix tier;
(iii) only when both fail is the fuzzy oracle consulted, and its answer is
returned at the fuzzy tier. -/
theorem c2_tier_order_exact_prefix_fuzzy (gcm : Gcm) (title : String)
    (m : List (String × String)) (log : List String) :
    (∀ v, lookupDict m (normalizeForMatch title) = some v →
      matchLyrics gcm title m log =
        (v, log ++ [title ++ " --> " ++ normalizeForMatch title ++ " (exact)"])) ∧
    (lookupDict m (normalizeForMatch title) = none →
      ∀ pre k v post, m = pre ++ (k, v) :: post →
        startsWithKey (normalizeForMatch title) k = true →
        (∀ p ∈ pre, startsWithKey (normalizeForMatch title) p.1 = false) →
        matchLyrics gcm title m log =
          (v, log ++ [title ++ " --> " ++ k ++ " (prefix)"])) ∧
    (lookupDict m (normalizeForMatch title) = none →
      m.find? (fun kv => startsWithKey (normalizeForMatch title) kv.1) = none →
      ∀ k, gcm (normalizeForMatch title) (m.map (·.1)) (0.6 : Rat) = some k →
        matchLyrics gcm title m log =
          ((lookupDict m k).getD "", log ++ [title ++ " --> " ++ k ++ " (fuzzy)"])) := by
  refine ⟨fun v hv => ?_, fun hnone pre k v post hm hk hpre => ?_, fun hnone hpre k hk => ?_⟩
  · simp [matchLyrics, hv]
  · have hfind : m.find? (fun kv => startsWithKey (normalizeForMatch title) kv.1) = some (k, v) := by
      subst hm
      exact find_first _ pre post (k, v) hk hpre
    simp [matchLyrics, hnone, hfind]
  · simp [matchLyrics, hnone, hpre, hk]

/-- Closed instance of C2: an exact match beats everything for a title
whose normalization is a key, and the spec's prefix scenario (exact tier
failing, 10-character prefix succeeding) resolves at the prefix tier. -/
theorem c2_tier_order_witness :
    matchLyrics gcmEmpty "Song" [("song", "L")] [] =
      ("L", ["Song --> song (exact)"]) ∧
    matchLyrics gcmEmpty "Blank Space" [("zzz", "no"), ("blank space x", "B")] [] =
      ("B", ["Blank Space --> blank space x (prefix)"]) := by
  constructor
  · exact (c2_tier_order_exact_prefix_fuzzy gcmEmpty "Song" [("song", "L")] []).1 "L" (by decide)
  · exact (c2_tier_order_exact_prefix_fuzzy gcmEmpty "Blank Space"
      [("zzz", "no"), ("blank space x", "B")] []).2.1 (by decide)
      [("zzz", "no")] "blank space x" "B" [] rfl (by decide) (by decide)

/-! ## Claim C4 — fallback lookup keys after a conflicted insert -/

/-- A database holding two artists that share the name "X" but have
different birth dates (both rows are legal under `UNIQUE (name,
birth_date)`). -/
def dbTwoArtistsX : DB :=
  { emptyDB with
     artists :=
       [{ id := 1, name := "X", birth_name := none, birth_date := some "1990-01-01"
          birth_place := none, country := "", active_years := none, genres := ""
          instruments := none, vocal_type := none, popularity := none
          followers := none, image_url := none },
        { id := 2, name := "X", birth_name := none, birth_date := some "1991-01-01"
          birth_place := none, country := "", active_years := none, genres := ""
          instruments := none, vocal_type := none, popularity := none
          followers := none, image_url := none }]
     nextArtistId := 3 }

/-- The artist record whose insert conflicts with row 2 of
`dbTwoArtistsX`. -/
def artistX1991 : ArtistData :=
  { name := "X", birth_name := none, birth_date := some "1991-01-01"
    birth_place := none, country := "", active_years := none, genres := ""
    instruments := none, vocal_type := none, popularity := none
    followers := none, image_url := none }

/-- **C4 counterexample.** The claim says the artist fallback lookup uses
the conflict clause's uniqueness key `(name, birth_date)`.  It does not:
upserting artist ("X", 1991-01-01) into `dbTwoArtistsX` conflicts with row
2, and the fallback (`SELECT id FROM artists WHERE name = %s`) returns id
1 — a row with a *different* birth date — although the row matching the
uniqueness key is id 2. -/
theorem c4_artist_fallback_by_name_only_counterexample :
    (upsertArtistId dbTwoArtistsX artistX1991).1 = some 1 ∧
    (dbTwoArtistsX.artists.find? fun r =>
        r.name = artistX1991.name && sqlEq r.birth_date artistX1991.birth_date).map (·.id) =
      some 2 ∧
    (insertArtist dbTwoArtistsX artistX1991).1 = none := by
  decide

/-- **C4 (amended).** When the conflict-ignoring insert returns no id, the
*album* fallback lookup does use the conflict clause's uniqueness key
`(name, artist_id)` — any id it returns belongs to a row with exactly that
name and artist id, and it finds one whenever one exists; the *artist*
fallback lookup, however, selects by name alone — any id it returns is
only guaranteed to belong to some row with that name, regardless of birth
date. -/
theorem c4_fallback_lookup_keys_amended :
    (∀ (db : DB) (n : String) (aid i : Nat), albumFallbackLookup db n aid = some i →
      ∃ r ∈ db.albums, r.id = i ∧ r.name = n ∧ r.artist_id = aid) ∧
    (∀ (db : DB) (n : String) (aid : Nat) (r : AlbumRow),
      r ∈ db.albums → r.name = n → r.artist_id = aid →
      (albumFallbackLookup db n aid).isSome) ∧
    (∀ (db : DB) (n : String) (i : Nat), artistFallbackLookup db n = some i →
      ∃ r ∈ db.artists, r.id = i ∧ r.name = n) := by
  refine ⟨fun db n aid i h => ?_, fun db n aid r hr hn ha => ?_, fun db n i h => ?_⟩
  · simp only [albumFallbackLookup, Option.map_eq_some'] at h
    obtain ⟨r, hfind, hid⟩ := h
    have hmem := List.mem_of_find?_eq_some hfind
    have hp := List.find?_some hfind
    simp only [Bool.and_eq_true, decide_eq_true_eq] at hp
    exact ⟨r, hmem, hid, hp.1, hp.2⟩
  · cases hfind : db.albums.find? (fun r => r.name = n && r.artist_id = aid) with
    | some s => simp [albumFallbackLookup, hfind]
    | none =>
      exfalso
      have := List.find?_eq_none.mp hfind r hr
      simp [hn, ha] at this
  · simp only [artistFallbackLookup, Option.map_eq_some'] at h
    obtain ⟨r, hfind, hid⟩ := h
    have hmem := List.mem_of_find?_eq_some hfind
    have hp := List.find?_some hfind
    simp only [decide_eq_true_eq] at hp
    exact ⟨r, hmem, hid, hp⟩

/-- Closed instance of the amended C4: in `dbTwoArtistsX` extended with an
album ("Y", artist 2), the album fallback finds the row by its full key,
and the artist fallback's answer (id 1) is a row named "X". -/
theorem c4_fallback_lookup_keys_witness :
    (∃ r ∈ ({ dbTwoArtistsX with
        albums := [{ id := 7, name := "Y", artist_id := 2, release_date := none
                     popularity := none, image_url := none }] } : DB).albums,
       r.id = 7 ∧ r.name = "Y" ∧ r.artist_id = 2) ∧
    (∃ r ∈ dbTwoArtistsX.artists, r.id = 1 ∧ r.name = "X") := by
  constructor
  · exact c4_fallback_lookup_keys_amended.1
      { dbTwoArtistsX with
        albums := [{ id := 7, name := "Y", artist_id := 2, release_date := none
                     popularity := none, image_url := none }] }
      "Y" 2 7 (by decide)
  · exact c4_fallback_lookup_keys_amended.2.2 dbTwoArtistsX "X" 1 (by decide)

/-! ## Claim C5 — the track name-to-id map is scoped to the album -/

/-- Well-formedness of the `tracks` table, as its schema guarantees:
distinct rows have distinct `SERIAL` primary keys, and `UNIQUE (name,
album_id)` holds. -/
def tracksWf (db : DB) : Prop :=
  db.tracks.Pairwise fun r s => r.id ≠ s.id ∧ (r.name ≠ s.name ∨ r.album_id ≠ s.album_id)

/-- In a well-formed table, the scoped name-to-id map resolves a track's
name to that track's id. -/
theorem lookup_getTrackNameToId (db : DB) (t : TrackRow)
    (hwf : tracksWf db) (ht : t ∈ db.tracks) :
    lookupDictNat (getTrackNameToId db t.album_id) t.name = some t.id := by
  unfold getTrackNameToId
  have htL : t ∈ db.tracks.filter (fun r => r.album_id = t.album_id) :=
    List.mem_filter.mpr ⟨ht, by simp⟩
  have hpw : (db.tracks.filter (fun r => r.album_id = t.album_id)).Pairwise
      (fun r s => r.id ≠ s.id ∧ (r.name ≠ s.name ∨ r.album_id ≠ s.album_id)) :=
    List.Pairwise.sublist (List.filter_sublist _) hwf
  obtain ⟨L₁, L₂, hsplit⟩ := List.append_of_mem htL
  rw [hsplit]
  refine build_lookup_last L₁ L₂ t [] fun s hs => ?_
  have hsL : s ∈ db.tracks.filter (fun r => r.album_id = t.album_id) := by
    rw [hsplit]
    exact List.mem_append_right _ (List.mem_cons_of_mem _ hs)
  have hsalb : s.album_id = t.album_id := by
    have := (List.mem_filter.mp hsL).2
    exact of_decide_eq_true this
  rw [hsplit] at hpw
  have hR := (List.pairwise_cons.mp (List.pairwise_append.mp hpw).2.1).1 s hs
  rcases hR.2 with hname | halb
  · exact fun h => hname h.symm
  · exact absurd hsalb.symm halb

/-- Distinct rows of a well-formed `tracks` table have distinct ids. -/
theorem tracksWf_id_ne (db : DB) (hwf : tracksWf db) (t1 t2 : TrackRow)
    (h1 : t1 ∈ db.tracks) (h2 : t2 ∈ db.tracks) (hne : t1 ≠ t2) :
    t1.id ≠ t2.id := by
  have hsymm : Symmetric
      (fun r s : TrackRow => r.id ≠ s.id ∧ (r.name ≠ s.name ∨ r.album_id ≠ s.album_id)) :=
    fun r s h => ⟨h.1.symm, h.2.imp Ne.symm Ne.symm⟩
  exact (List.Pairwise.forall hsymm hwf h1 h2 hne).1

/-- **C5.** The name-to-id map built after the bulk track insert is scoped
to the album id: in any well-formed table holding a track named `n` in
album `a1` and a track named `n` in a different album `a2`, the map built
for each album resolves `n` to that album's own track, the two resolved
ids are distinct, and inserting lyrics for a track row named `n` through
the `a1`-scoped map attaches the lyric text to `a1`'s track id. -/
theorem c5_scoped_track_name_map (db : DB) (n : String) (t1 t2 : TrackRow)
    (hwf : tracksWf db) (h1 : t1 ∈ db.tracks) (h2 : t2 ∈ db.tracks)
    (hn1 : t1.name = n) (hn2 : t2.name = n) (hne : t1.album_id ≠ t2.album_id) :
    lookupDictNat (getTrackNameToId db t1.album_id) n = some t1.id ∧
    lookupDictNat (getTrackNameToId db t2.album_id) n = some t2.id ∧
    t1.id ≠ t2.id ∧
    ∀ td : TrackData, td.name = n → (∀ l ∈ db.lyrics, l.track_id ≠ t1.id) → t1.id ≠ 0 →
      (insertLyrics db [td] (getTrackNameToId db t1.album_id)).lyrics =
        db.lyrics ++
          [{ track_id := t1.id, text := some td.lyrics
             readability_score := none, sentiment_score := none
             word_count := none, line_count := none, char_count := none
             lexical_density := none }] := by
  have hl1 : lookupDictNat (getTrackNameToId db t1.album_id) n = some t1.id := by
    rw [← hn1]; exact lookup_getTrackNameToId db t1 hwf h1
  have hl2 : lookupDictNat (getTrackNameToId db t2.album_id) n = some t2.id := by
    rw [← hn2]; exact lookup_getTrackNameToId db t2 hwf h2
  refine ⟨hl1, hl2, ?_, fun td htd hfresh h0 => ?_⟩
  · exact tracksWf_id_ne db hwf t1 t2 h1 h2 fun h => hne (congrArg TrackRow.album_id h)
  · have hany : db.lyrics.any (fun l => l.track_id = t1.id) = false :=
      List.any_eq_false.mpr fun l hl => by simpa using hfresh l hl
    simp [insertLyrics, insertLyricsRow, htd, hl1, h0, hany]

/-- Closed instance of C5: two albums (ids 1 and 2) each contain a track
named "Intro" (rows 10 and 11); the scoped maps resolve "Intro" to 10 and
11 respectively, and lyrics inserted through album 1's map land on track
10. -/
theorem c5_scoped_track_name_map_witness :
    lookupDictNat
        (getTrackNameToId
          { emptyDB with
             tracks := [{ id := 10, name := "Intro", album_id := 1, track_number := 1
                          duration_ms := none, explicit := none, popularity := none },
                        { id := 11, name := "Intro", album_id := 2, track_number := 1
                          duration_ms := none, explicit := none, popularity := none }]
             nextTrackId := 12 } 1) "Intro" = some 10 ∧
    lookupDictNat
        (getTrackNameToId
          { emptyDB with
             tracks := [{ id := 10, name := "Intro", album_id := 1, track_number := 1
                          duration_ms := none, explicit := none, popularity := none },
                        { id := 11, name := "Intro", album_id := 2, track_number := 1
                          duration_ms := none, explicit := none, popularity := none }]
             nextTrackId := 12 } 2) "Intro" = some 11 ∧
    (10 : Nat) ≠ 11 := by
  have h := c5_scoped_track_name_map
    { emptyDB with
       tracks := [{ id := 10, name := "Intro", album_id := 1, track_number := 1
                    duration_ms := none, explicit := none, popularity := none },
                  { id := 11, name := "Intro", album_id := 2, track_number := 1
                    duration_ms := none, explicit := none, popularity := none }]
       nextTrackId := 12 }
    "Intro"
    { id := 10, name := "Intro", album_id := 1, track_number := 1
      duration_ms := none, explicit := none, popularity := none }
    { id := 11, name := "Intro", album_id := 2, track_number := 1
      duration_ms := none, explicit := none, popularity := none }
    (by constructor <;> simp) (by simp) (by simp) rfl rfl (by decide)
  exact ⟨h.1, h.2.1, h.2.2.1⟩

/-! ## Claim C6 — audit log entries and no-match handling -/

/-- The entry shape the claim asserts for *every* audit entry:
`"<original title> --> <matched key or No match> (<tier>)"`. -/
def claimedAuditShape (title entry : String) : Prop :=
  ∃ m tier, entry = title ++ " --> " ++ m ++ " (" ++ tier ++ ")"

/-- Any string of the claimed shape contains the character `'('`. -/
theorem claimedAuditShape_contains_paren (title entry : String)
    (h : claimedAuditShape title entry) : '(' ∈ entry.data := by
  obtain ⟨m, tier, h⟩ := h
  subst h
  simp only [strData_append]
  refine List.mem_append_left _ (List.mem_append_left _ ?_)
  exact List.mem_append_right _ (by decide)

/-- **C6 counterexample.** A no-match invocation appends the entry
`"Song --> ❌ No match"`, which is not of the claimed form
`"<title> --> <matched key or No match> (<tier>)"`: it carries no
parenthesised tier at all (and prepends a marker to "No match"). -/
theorem c6_no_match_entry_shape_counterexample :
    (matchLyrics gcmEmpty "Song" [] []).2 = ["Song --> ❌ No match"] ∧
    ¬claimedAuditShape "Song" "Song --> ❌ No match" := by
  refine ⟨by decide, fun h => ?_⟩
  have := claimedAuditShape_contains_paren _ _ h
  revert this
  decide

/-- **C6 (amended).** Every invocation of the matcher appends exactly one
audit entry; entries for the three matched tiers have the claimed form
`"<title> --> <matched key> (<tier>)"`; when no tier matches, the matcher
returns the empty string (nothing fabricated), appends the tier-less entry
`"<title> --> ❌ No match"`, and the title then appears in the
missing-lyrics selection of its album's rows. -/
theorem c6_audit_log_amended (gcm : Gcm) (title : String)
    (m : List (String × String)) (log : List String) :
    (∃ e, (matchLyrics gcm title m log).2 = log ++ [e]) ∧
    (∀ v, lookupDict m (normalizeForMatch title) = some v →
      claimedAuditShape title (title ++ " --> " ++ normalizeForMatch title ++ " (exact)") ∧
      (matchLyrics gcm title m log).2 =
        log ++ [title ++ " --> " ++ normalizeForMatch title ++ " (exact)"]) ∧
    (lookupDict m (normalizeForMatch title) = none →
      ∀ kv, m.find? (fun kv => startsWithKey (normalizeForMatch title) kv.1) = some kv →
        claimedAuditShape title (title ++ " --> " ++ kv.1 ++ " (prefix)") ∧
        (matchLyrics gcm title m log).2 = log ++ [title ++ " --> " ++ kv.1 ++ " (prefix)"]) ∧
    (lookupDict m (normalizeForMatch title) = none →
      m.find? (fun kv => startsWithKey (normalizeForMatch title) kv.1) = none →
      ∀ k, gcm (normalizeForMatch title) (m.map (·.1)) (0.6 : Rat) = some k →
        claimedAuditShape title (title ++ " --> " ++ k ++ " (fuzzy)") ∧
        (matchLyrics gcm title m log).2 = log ++ [title ++ " --> " ++ k ++ " (fuzzy)"]) ∧
    (lookupDict m (normalizeForMatch title) = none →
      m.find? (fun kv => startsWithKey (normalizeForMatch title) kv.1) = none →
      gcm (normalizeForMatch title) (m.map (·.1)) (0.6 : Rat) = none →
      matchLyrics gcm title m log = ("", log ++ [title ++ " --> ❌ No match"]) ∧
      ∀ titles : List String, title ∈ titles →
        title ∈ missingOf (titles.map fun s => (s, (matchLyrics gcm s m []).1))) := by
  refine ⟨?_,
    fun v hv => ⟨⟨normalizeForMatch title, "exact", by simp [strAppend_assoc]⟩,
      by simp [matchLyrics, hv]⟩,
    fun hnone kv hkv => ⟨⟨kv.1, "prefix", by simp [strAppend_assoc]⟩,
      by simp [matchLyrics, hnone, hkv]⟩,
    fun hnone hpre k hk => ⟨⟨k, "fuzzy", by simp [strAppend_assoc]⟩,
      by simp [matchLyrics, hnone, hpre, hk]⟩,
    fun hnone hpre hgcm => ⟨by simp [matchLyrics, hnone, hpre, hgcm], fun titles ht => ?_⟩⟩
  · unfold matchLyrics
    dsimp only
    cases lookupDict m (normalizeForMatch title) with
    | some v => exact ⟨_, rfl⟩
    | none =>
      cases m.find? (fun kv => startsWithKey (normalizeForMatch title) kv.1) with
      | some kv => exact ⟨_, rfl⟩
      | none =>
        cases gcm (normalizeForMatch title) (m.map (·.1)) (0.6 : Rat) with
        | some k => exact ⟨_, rfl⟩
        | none => exact ⟨_, rfl⟩
  · have hres : (matchLyrics gcm title m []).1 = "" := by
      simp [matchLyrics, hnone, hpre, hgcm]
    have hmem : (title, (matchLyrics gcm title m []).1) ∈
        (titles.map fun s => (s, (matchLyrics gcm s m []).1)) :=
      List.mem_map_of_mem _ ht
    rw [hres] at hmem
    unfold missingOf
    refine List.mem_map.mpr ⟨(title, ""), List.mem_filter.mpr ⟨hmem, by simp⟩, rfl⟩

/-- An oracle returning the first candidate — one legal behaviour of
`get_close_matches` (its answer is always drawn from the candidate list);
used to exercise the fuzzy tier at a concrete input. -/
def gcmHead : Gcm := fun _ ps _ => ps.head?

/-- Closed instance of the amended C6: on an empty candidate map every
tier fails, one entry is appended, the tier-less no-match entry is logged,
the result is the empty string, and the title lands in the missing list;
and when only the fuzzy tier succeeds, the logged entry carries the
`(fuzzy)` tier in the claimed shape. -/
theorem c6_audit_log_amended_witness :
    matchLyrics gcmEmpty "Song" [] [] = ("", ["Song --> ❌ No match"]) ∧
    "Song" ∈ missingOf ((["Song"]).map fun s => (s, (matchLyrics gcmEmpty s [] []).1)) ∧
    (matchLyrics gcmHead "xyzw" [("qqqqqqqqqqqq", "L")] []).2 =
      ["xyzw --> qqqqqqqqqqqq (fuzzy)"] := by
  have h := (c6_audit_log_amended gcmEmpty "Song" [] []).2.2.2.2 (by decide) (by decide) rfl
  have hf := (c6_audit_log_amended gcmHead "xyzw" [("qqqqqqqqqqqq", "L")] []).2.2.2.1
    (by decide) (by decide) "qqqqqqqqqqqq" rfl
  exact ⟨h.1, h.2 ["Song"] (by decide), hf.2⟩

/-! ## Claim C7 — lyrics-folder resolution: exact, then fuzzy at 0.85, then error -/

/-- **C7.** Resolving the lyrics folder for (artist, album): (i) when the
unicode-normalized, lowercased album name is a key of the folder map, that
folder is returned — for every oracle, so the fuzzy matcher is consulted
only if the exact match fails; (ii) when the exact match fails, the
resolver consults `get_close_matches` at cutoff 0.85 and returns the folder
it names; (iii) when the exact match fails and the cutoff-0.85 fuzzy match
also fails, the resolver raises (`Except.error`) rather than falling back
silently. -/
theorem c7_folder_resolution_tiers (gcm : Gcm) (artist album : String)
    (folders : List String) :
    (∀ f, lookupDict (buildFolderMap folders) (lowerStr (normalizeUnicode album)) = some f →
      findAlbumFolderPath gcm artist folders album = Except.ok f) ∧
    (lookupDict (buildFolderMap folders) (lowerStr (normalizeUnicode album)) = none →
      ∀ k f, gcm (lowerStr (normalizeUnicode album))
          ((buildFolderMap folders).map (·.1)) (0.85 : Rat) = some k →
        lookupDict (buildFolderMap folders) k = some f →
        findAlbumFolderPath gcm artist folders album = Except.ok f) ∧
    (lookupDict (buildFolderMap folders) (lowerStr (normalizeUnicode album)) = none →
      gcm (lowerStr (normalizeUnicode album))
          ((buildFolderMap folders).map (·.1)) (0.85 : Rat) = none →
      findAlbumFolderPath gcm artist folders album =
        Except.error ("❌ No matching folder found for " ++ album ++ " under " ++ artist)) := by
  refine ⟨fun f hf => ?_, fun hnone k f hk hf => ?_, fun hnone hk => ?_⟩
  · simp [findAlbumFolderPath, hf]
  · simp [findAlbumFolderPath, hnone, hk, hf]
  · simp [findAlbumFolderPath, hnone, hk]

/-- Closed instance of C7: the folder "Red" resolves exactly for album
"Red" whatever the oracle does, and with no close match the resolver
errors for album "Blue". -/
theorem c7_folder_resolution_tiers_witness :
    findAlbumFolderPath gcmEmpty "TS" ["Red"] "Red" = Except.ok "Red" ∧
    findAlbumFolderPath gcmEmpty "TS" ["Red"] "Blue" =
      Except.error ("❌ No matching folder found for " ++ "Blue" ++ " under " ++ "TS") := by
  constructor
  · exact (c7_folder_resolution_tiers gcmEmpty "TS" "Red" ["Red"]).1 "Red" (by decide)
  · exact (c7_folder_resolution_tiers gcmEmpty "TS" "Blue" ["Red"]).2.2 (by decide) rfl

/-! ## Claim C8 — the artist metadata copy across album joins -/

/-- A successful album-join input for the C8 scenario: the transformed CSV
has one song, the lyrics folder one matching file, and the artist metadata
source file exists. -/
def c8Input : AlbumJoinInput :=
  { songNames := some ["s"], lyricFiles := some [("s", "la")], metadataSrcExists := true }

/-- The join state at the start of a run. -/
def c8Start : JoinState :=
  { logs := [], successes := [], matchedLogWrites := [], missingLogWrites := [], copyCount := 0 }

/-- **C8 counterexample.** Joining two albums of the same artist, both
successfully and with the metadata source present, copies the artist-level
metadata file twice — once per successful album join — not exactly once:
the copy step has no already-copied check to skip. -/
theorem c8_metadata_copied_per_album_counterexample :
    (joinAlbum gcmEmpty "A" "B2" c8Input (joinAlbum gcmEmpty "A" "B1" c8Input c8Start)).successes.length = 2 ∧
    (joinAlbum gcmEmpty "A" "B2" c8Input (joinAlbum gcmEmpty "A" "B1" c8Input c8Start)).copyCount = 2 ∧
    (joinAlbum gcmEmpty "A" "B2" c8Input (joinAlbum gcmEmpty "A" "B1" c8Input c8Start)).copyCount ≠ 1 := by
  refine ⟨by decide, by decide, by decide⟩

/-- **C8 (amended).** Over a sequence of album joins for one artist, the
artist-level metadata file is copied once per *successful album join whose
metadata source exists* — it is re-copied (overwriting the same
destination) on every later successful join, never skipped as already
copied. -/
theorem c8_metadata_copy_per_successful_join_amended (gcm : Gcm) :
    (∀ (artist album : String) (inp : AlbumJoinInput) (st : JoinState),
      (joinAlbum gcm artist album inp st).copyCount =
        st.copyCount + (if joinSucceeds inp && inp.metadataSrcExists then 1 else 0)) ∧
    (∀ (jobs : List (String × String × AlbumJoinInput)) (st : JoinState),
      (jobs.foldl (fun s j => joinAlbum gcm j.1 j.2.1 j.2.2 s) st).copyCount =
        st.copyCount +
          (jobs.filter fun j => joinSucceeds j.2.2 && j.2.2.metadataSrcExists).length) := by
  have hone : ∀ (artist album : String) (inp : AlbumJoinInput) (st : JoinState),
      (joinAlbum gcm artist album inp st).copyCount =
        st.copyCount + (if joinSucceeds inp && inp.metadataSrcExists then 1 else 0) := by
    intro artist album inp st
    unfold joinAlbum joinSucceeds joinFail
    cases inp.songNames with
    | none => simp
    | some names =>
      cases hfiles : inp.lyricFiles with
      | none => simp
      | some files =>
        dsimp only
        cases hempty : (loadCombinedLyricsMap files).isEmpty with
        | true => simp [hempty]
        | false =>
          cases hsrc : inp.metadataSrcExists with
          | true =>
            simp [hempty, hsrc]
            split_ifs <;> rfl
          | false =>
            simp [hempty, hsrc]
            split_ifs <;> rfl
  refine ⟨hone, fun jobs => ?_⟩
  induction jobs with
  | nil => intro st; simp
  | cons j js ih =>
    intro st
    rw [List.foldl_cons, ih, hone, List.filter_cons]
    cases hj : joinSucceeds j.2.2 && j.2.2.metadataSrcExists with
    | true => simp [hj, Nat.add_assoc, Nat.add_comm 1]
    | false => simp [hj]

/-! ## Claim C9 — titles that normalize to the empty string -/

/-- The empty 10-character prefix test accepts every key. -/
theorem startsWithKey_empty (key : String) : startsWithKey "" key = true := by
  simp [startsWithKey]

/-- **C9 counterexample.** The claim says an empty-after-normalization
title always resolves to the *first* candidate key at the *prefix* tier.
Not when the empty string is itself a candidate key: "Remix" normalizes to
`""`, and against the map `[("a", "A"), ("", "B")]` the matcher returns
`"B"` — the lyrics of the key `""`, not of the first key `"a"` — at the
*exact* tier. -/
theorem c9_empty_key_exact_tier_counterexample :
    normalizeForMatch "Remix" = "" ∧
    matchLyrics gcmEmpty "Remix" [("a", "A"), ("", "B")] [] =
      ("B", ["Remix -->  (exact)"]) ∧
    (matchLyrics gcmEmpty "Remix" [("a", "A"), ("", "B")] []).1 ≠ "A" := by
  refine ⟨by decide, by decide, by decide⟩

/-- **C9 (amended).** If a song title normalizes to the empty string and
the candidate map is nonempty, the matcher never reports "No match": when
the empty string is not itself a candidate key, the prefix tier fires on
the empty 10-character prefix and returns the first candidate in iteration
order; when the empty string is a candidate key, the exact tier fires and
returns that key's lyrics. -/
theorem c9_empty_normalized_title_amended (gcm : Gcm) (title : String)
    (k v : String) (rest : List (String × String)) (log : List String)
    (hnorm : normalizeForMatch title = "") :
    (lookupDict ((k, v) :: rest) "" = none →
      matchLyrics gcm title ((k, v) :: rest) log =
        (v, log ++ [title ++ " --> " ++ k ++ " (prefix)"])) ∧
    (∀ w, lookupDict ((k, v) :: rest) "" = some w →
      matchLyrics gcm title ((k, v) :: rest) log =
        (w, log ++ [title ++ " --> " ++ "" ++ " (exact)"])) := by
  constructor
  · intro hnone
    have hfind : ((k, v) :: rest).find?
        (fun kv => startsWithKey "" kv.1) = some (k, v) :=
      List.find?_cons_of_pos _ (startsWithKey_empty k)
    simp [matchLyrics, hnorm, hnone, hfind]
  · intro w hw
    simp [matchLyrics, hnorm, hw]

/-- Closed instance of the amended C9: "Remix" normalizes to `""`, and
against a map without an empty key it takes the first candidate at the
prefix tier. -/
theorem c9_empty_normalized_title_witness :
    matchLyrics gcmEmpty "Remix" [("a", "A")] [] = ("A", ["Remix --> a (prefix)"]) :=
  (c9_empty_normalized_title_amended gcmEmpty "Remix" "a" "A" [] [] (by decide)).1 (by decide)

/-! ## Claim C10 — duplicate SongName rows within one album CSV -/

/-- **C10.** If an album's parsed rows contain two tracks with the same
`SongName`, then loading them into an album that has no tracks yet
persists exactly one `tracks` row for that (name, album_id) pair — carrying
the *first* duplicate row's metadata — and exactly one `lyrics` row for its
id — carrying the *first* duplicate row's lyrics; the second duplicate
row's metadata and lyrics are never persisted. -/
theorem c10_duplicate_songname_first_row_wins (db : DB) (aid : Nat) (t1 t2 : TrackData)
    (hname : t2.name = t1.name)
    (hfresh : ∀ r ∈ db.tracks, r.album_id ≠ aid)
    (hpos : db.nextTrackId ≠ 0)
    (hlyr : ∀ l ∈ db.lyrics, l.track_id ≠ db.nextTrackId) :
    (insertTracks db [t1, t2] aid).tracks =
      db.tracks ++
        [{ id := db.nextTrackId, name := t1.name, album_id := aid
           track_number := t1.track_number, duration_ms := t1.duration_ms
           explicit := t1.explicit, popularity := t1.popularity }] ∧
    ((insertTracks db [t1, t2] aid).tracks.filter
        fun r => r.name = t1.name && r.album_id = aid).length = 1 ∧
    (insertLyrics (insertTracks db [t1, t2] aid) [t1, t2]
        (getTrackNameToId (insertTracks db [t1, t2] aid) aid)).lyrics =
      db.lyrics ++
        [{ track_id := db.nextTrackId, text := some t1.lyrics
           readability_score := none, sentiment_score := none
           word_count := none, line_count := none, char_count := none
           lexical_density := none }] := by
  have hany1 : db.tracks.any (fun r => r.name = t1.name && r.album_id = aid) = false :=
    List.any_eq_false.mpr fun r hr => by simp [hfresh r hr]
  have hstep1 : insertTrackRow aid db t1 =
      { db with
         tracks := db.tracks ++
           [{ id := db.nextTrackId, name := t1.name, album_id := aid
              track_number := t1.track_number, duration_ms := t1.duration_ms
              explicit := t1.explicit, popularity := t1.popularity }]
         nextTrackId := db.nextTrackId + 1 } := by
    simp [insertTrackRow, hany1]
  have htracks : insertTracks db [t1, t2] aid =
      { db with
         tracks := db.tracks ++
           [{ id := db.nextTrackId, name := t1.name, album_id := aid
              track_number := t1.track_number, duration_ms := t1.duration_ms
              explicit := t1.explicit, popularity := t1.popularity }]
         nextTrackId := db.nextTrackId + 1 } := by
    simp only [insertTracks, List.foldl_cons, List.foldl_nil, hstep1]
    simp [insertTrackRow, List.any_append, hname]
  have hfilterA :
      ((db.tracks ++
          [{ id := db.nextTrackId, name := t1.name, album_id := aid
             track_number := t1.track_number, duration_ms := t1.duration_ms
             explicit := t1.explicit, popularity := t1.popularity }] :
          List TrackRow).filter fun r => r.album_id = aid) =
        [{ id := db.nextTrackId, name := t1.name, album_id := aid
           track_number := t1.track_number, duration_ms := t1.duration_ms
           explicit := t1.explicit, popularity := t1.popularity }] := by
    rw [List.filter_append]
    have hnilf : db.tracks.filter (fun r => r.album_id = aid) = [] :=
      List.filter_eq_nil_iff.mpr fun r hr => by simp [hfresh r hr]
    simp [hnilf]
  have hmap : getTrackNameToId (insertTracks db [t1, t2] aid) aid =
      [(t1.name, db.nextTrackId)] := by
    rw [htracks]
    simp only [getTrackNameToId]
    rw [hfilterA]
    rfl
  have hanyL : db.lyrics.any (fun l => l.track_id = db.nextTrackId) = false :=
    List.any_eq_false.mpr fun l hl => by simp [hlyr l hl]
  refine ⟨by rw [htracks], ?_, ?_⟩
  · rw [htracks]
    simp only [List.filter_append]
    have hnilf : db.tracks.filter (fun r => r.name = t1.name && r.album_id = aid) = [] :=
      List.filter_eq_nil_iff.mpr fun r hr => by simp [hfresh r hr]
    simp [hnilf]
  · rw [hmap, htracks]
    simp only [insertLyrics, List.foldl_cons, List.foldl_nil]
    have hrow1 :
        insertLyricsRow [(t1.name, db.nextTrackId)]
          { db with
             tracks := db.tracks ++
               [{ id := db.nextTrackId, name := t1.name, album_id := aid
                  track_number := t1.track_number, duration_ms := t1.duration_ms
                  explicit := t1.explicit, popularity := t1.popularity }]
             nextTrackId := db.nextTrackId + 1 } t1 =
          { db with
             tracks := db.tracks ++
               [{ id := db.nextTrackId, name := t1.name, album_id := aid
                  track_number := t1.track_number, duration_ms := t1.duration_ms
                  explicit := t1.explicit, popularity := t1.popularity }]
             nextTrackId := db.nextTrackId + 1
             lyrics := db.lyrics ++
               [{ track_id := db.nextTrackId, text := some t1.lyrics
                  readability_score := none, sentiment_score := none
                  word_count := none, line_count := none, char_count := none
                  lexical_density := none }] } := by
      simp [insertLyricsRow, lookupDictNat, List.find?_cons, hpos, hanyL]
    rw [hrow1]
    simp [insertLyricsRow, lookupDictNat, List.find?_cons, hname, hpos, List.any_append]

/-- Closed instance of C10: loading an album CSV whose rows 1 and 2 are
both named "Intro" into a fresh database persists a single "Intro" track
row with row 1's track number, and a single lyrics row with row 1's
lyrics. -/
theorem c10_duplicate_songname_first_row_wins_witness :
    (insertTracks emptyDB
        [{ name := "Intro", track_number := 1, duration_ms := none, explicit := none
           popularity := none, lyrics := "first" },
         { name := "Intro", track_number := 2, duration_ms := none, explicit := none
           popularity := none, lyrics := "second" }] 1).tracks =
      [{ id := 1, name := "Intro", album_id := 1, track_number := 1
         duration_ms := none, explicit := none, popularity := none }] ∧
    (insertLyrics
        (insertTracks emptyDB
          [{ name := "Intro", track_number := 1, duration_ms := none, explicit := none
             popularity := none, lyrics := "first" },
           { name := "Intro", track_number := 2, duration_ms := none, explicit := none
             popularity := none, lyrics := "second" }] 1)
        [{ name := "Intro", track_number := 1, duration_ms := none, explicit := none
           popularity := none, lyrics := "first" },
         { name := "Intro", track_number := 2, duration_ms := none, explicit := none
           popularity := none, lyrics := "second" }]
        (getTrackNameToId
          (insertTracks emptyDB
            [{ name := "Intro", track_number := 1, duration_ms := none, explicit := none
               popularity := none, lyrics := "first" },
             { name := "Intro", track_number := 2, duration_ms := none, explicit := none
               popularity := none, lyrics := "second" }] 1) 1)).lyrics =
      [{ track_id := 1, text := some "first"
         readability_score := none, sentiment_score := none
         word_count := none, line_count := none, char_count := none
         lexical_density := none }] := by
  have h := c10_duplicate_songname_first_row_wins emptyDB 1
    { name := "Intro", track_number := 1, duration_ms := none, explicit := none
      popularity := none, lyrics := "first" }
    { name := "Intro", track_number := 2, duration_ms := none, explicit := none
      popularity := none, lyrics := "second" }
    rfl (by simp [emptyDB]) (by decide) (by simp [emptyDB])
  exact ⟨h.1, h.2.2⟩

end STV
